import Mathlib

/-!
Shallow embedding of the ingest-process routes of UW-Macrostrat/api-v2
(src/api/routes/ingest.py) and their request models (src/api/models/ingest.py).

The persistence store is modelled as an explicit `DB` state record; each route
is a Lean function from its inputs and the current `DB` to the committed `DB`
and an `Except`-style outcome.  Python exceptions (FastAPI `HTTPException`,
`AttributeError` on `None`/missing attributes, SQLAlchemy statement errors)
are the error constructors of `PyError`.  The minio object-store client is an
oracle parameter, since its transport is external to the repository.
-/

namespace Ingest

/-- One row of the `ingest_process_tag` table (schema `IngestProcessTag`):
a foreign key to the owning process and the tag string. -/
structure TagRow where
  ingest_process_id : Nat
  tag : String
deriving DecidableEq, Repr

/-- One row of the `ingest_process` table (schema `IngestProcess`):
id, state, comments, source_id, access_group_id, object_group_id,
created_on, completed_on.  Timestamps are modelled as `Nat`. -/
structure IngestProcessRow where
  id : Nat
  state : Option String
  comments : Option String
  source_id : Option Nat
  access_group_id : Option Nat
  object_group_id : Nat
  created_on : Nat
  completed_on : Option Nat
deriving DecidableEq, Repr

/-- One row of the `object` table: the group it belongs to and the
host/bucket/key triple that locates the blob in the object store. -/
structure ObjectRow where
  group_id : Nat
  host : String
  bucket : String
  key : String
deriving DecidableEq, Repr

/-- The persistence store: `Source` ids, `ObjectGroup` ids, the
`ingest_process` rows, the tag rows (in insertion order, which is the order
the `tags` relationship collection presents), the `object` rows, and the
server-side counters for the next assigned ids and the clock. -/
structure DB where
  sources : List Nat
  objectGroups : List Nat
  processes : List IngestProcessRow
  tagRows : List TagRow
  objects : List ObjectRow
  nextObjectGroupId : Nat
  nextProcessId : Nat
  now : Nat
deriving DecidableEq, Repr

/-- The committed tag list of a process, as the routes read it back after a
commit: the tag strings of all tag rows owned by `id`, in insertion order. -/
def DB.processTags (db : DB) (id : Nat) : List String :=
  (db.tagRows.filter (fun r => r.ingest_process_id == id)).map (fun r => r.tag)

/-- Python exception outcomes of a route body.  `httpException` is a raised
FastAPI `HTTPException (status, detail)`; `attributeError` is a Python
`AttributeError`; `integrityError` is a database constraint violation raised
at commit; `statementError` is a SQLAlchemy error raised while building or
executing a statement. -/
inductive PyError where
  | httpException (status : Nat) (detail : String)
  | attributeError (msg : String)
  | integrityError (msg : String)
  | statementError (msg : String)
deriving DecidableEq, Repr

/-- The raw JSON body of a create request as the spec describes it: the four
`Post` fields plus a list of tag strings. -/
structure RawPost where
  state : Option String
  comments : Option String
  source_id : Option Nat
  access_group_id : Option Nat
  tags : List String
deriving DecidableEq, Repr

/-- The validated `Post` request model (src/api/models/ingest.py lines 10-19):
it declares only `state`, `comments`, `source_id`, `access_group_id`. -/
structure Post where
  state : Option String
  comments : Option String
  source_id : Option Nat
  access_group_id : Option Nat
deriving DecidableEq, Repr

/-- Pydantic validation of a request body into `Post`.  The model's config is
`extra = "ignore"`, so any key of the body that is not a declared field — in
particular `tags` — is discarded during validation. -/
def Post.validate (raw : RawPost) : Post :=
  { state := raw.state
    comments := raw.comments
    source_id := raw.source_id
    access_group_id := raw.access_group_id }

/-- The attribute access `object.tags` performed by `create_ingest_process`
(src/api/routes/ingest.py line 87).  `Post` declares no `tags` field and
`extra = "ignore"` discarded the input value, so pydantic raises
`AttributeError` on the access. -/
def Post.getattrTags (_ : Post) : Except PyError (List String) :=
  .error (.attributeError "Post object has no attribute tags")

/-- `create_ingest_process` (src/api/routes/ingest.py lines 71-101).
After the access check, the route adds a fresh `ObjectGroup` and commits it
(first commit), then evaluates `object.tags`; were that to produce tag
strings, it would build the `IngestProcess` row with the committed group id
and the materialized tags and commit it (second commit), which the database
rejects with a foreign-key `IntegrityError` when `source_id` references no
existing `Source`.  The returned pair is (committed store, outcome): work of
a failed commit is rolled back, work of completed commits is kept. -/
def create_ingest_process (user_has_access : Bool) (raw : RawPost) (db : DB) :
    DB × Except PyError IngestProcessRow :=
  if user_has_access = false then
    (db, .error (.httpException 403 "User does not have access to create an object"))
  else
    let object := Post.validate raw
    let ogId := db.nextObjectGroupId
    let db1 : DB :=
      { db with
        objectGroups := db.objectGroups ++ [ogId]
        nextObjectGroupId := ogId + 1 }
    match object.getattrTags with
    | .error e => (db1, .error e)
    | .ok tagStrings =>
      let fkOk : Bool :=
        match object.source_id with
        | none => true
        | some sid => db1.sources.contains sid
      if fkOk = false then
        (db1, .error (.integrityError "insert or update on ingest_process violates foreign key constraint on source_id"))
      else
        let row : IngestProcessRow :=
          { id := db1.nextProcessId
            state := object.state
            comments := object.comments
            source_id := object.source_id
            access_group_id := object.access_group_id
            object_group_id := ogId
            created_on := db1.now
            completed_on := none }
        let db2 : DB :=
          { db1 with
            processes := db1.processes ++ [row]
            tagRows := db1.tagRows ++ tagStrings.map (fun t => ⟨row.id, t⟩)
            nextProcessId := db1.nextProcessId + 1 }
        (db2, .ok row)

/-- The validated `Patch` request model (src/api/models/ingest.py lines
30-31): the same four optional fields as `Post`.  The outer `Option` of each
field records whether the request body set the field at all, which is what
pydantic's `model_dump(exclude_unset=True)` distinguishes: `none` means the
key was absent from the body, `some v` means the body set the field to `v`
(where `v` itself may be a null). -/
structure Patch where
  state : Option (Option String)
  comments : Option (Option String)
  source_id : Option (Option Nat)
  access_group_id : Option (Option Nat)
deriving DecidableEq, Repr

/-- Whether `model_dump(exclude_unset=True)` of the patch body is the empty
dict: no field of the request body was set. -/
def Patch.isUnsetAll (p : Patch) : Bool :=
  p.state.isNone && p.comments.isNone && p.source_id.isNone && p.access_group_id.isNone

/-- The effect of `update(...).values(**object.model_dump(exclude_unset=True))`
on one matching row: each field present in the dump overwrites the column,
each absent field leaves the column as it was. -/
def applyPatch (p : Patch) (r : IngestProcessRow) : IngestProcessRow :=
  { r with
    state := p.state.getD r.state
    comments := p.comments.getD r.comments
    source_id := p.source_id.getD r.source_id
    access_group_id := p.access_group_id.getD r.access_group_id }

/-- `patch_ingest_process` (src/api/routes/ingest.py lines 104-129).
After the access check the route executes
`update(IngestProcess).where(id = id).values(dump).returning(...)` and reads
the first returned row with `session.scalar`.  When the dump is empty,
SQLAlchemy compiles the `UPDATE` with a bind parameter per column and the
execution fails with a statement error ("a value is required for bind
parameter") before touching any row.  When no row matches the id, `scalar`
returns `None` and the route evaluates `server_object.__dict__`, raising
`AttributeError` — there is no not-found check; the failed transaction is
rolled back.  Otherwise all matching rows are updated, the response is built
from the first of them, and the transaction commits. -/
def patch_ingest_process (user_has_access : Bool) (id : Nat) (object : Patch) (db : DB) :
    DB × Except PyError IngestProcessRow :=
  if user_has_access = false then
    (db, .error (.httpException 403 "User does not have access to create an object"))
  else if object.isUnsetAll then
    (db, .error (.statementError "a value is required for bind parameter"))
  else
    match db.processes.find? (fun r => r.id == id) with
    | none =>
      (db, .error (.attributeError "NoneType object has no attribute __dict__"))
    | some row =>
      let db2 : DB :=
        { db with
          processes := db.processes.map (fun r => if r.id == id then applyPatch object r else r) }
      (db2, .ok (applyPatch object row))

/-- `add_ingest_process_tag` (src/api/routes/ingest.py lines 131-158).
Modelled from the spec: the `Tag` request model is not under
src/api/models/ingest.py; per the spec it carries exactly one tag string, so
the tag string is taken as the argument directly.  The route loads the
process (404 if absent), appends one tag row, commits, reloads the process
and returns its full current tag list. -/
def add_ingest_process_tag (user_has_access : Bool) (id : Nat) (tag : String) (db : DB) :
    DB × Except PyError (List String) :=
  if user_has_access = false then
    (db, .error (.httpException 403 "User does not have access to create an object"))
  else
    match db.processes.find? (fun r => r.id == id) with
    | none =>
      (db, .error (.httpException 404 ("IngestProcess with id (" ++ toString id ++ ") not found")))
    | some _ =>
      let db2 : DB := { db with tagRows := db.tagRows ++ [⟨id, tag⟩] }
      (db2, .ok (db2.processTags id))

/-- `delete_ingest_process_tag` (src/api/routes/ingest.py lines 160-185).
The route loads the process (404 if absent), executes
`delete(IngestProcessTag).where(ingest_process_id = id and tag = tag)` —
removing every row whose pair matches — commits, reloads the process and
returns its remaining tag list. -/
def delete_ingest_process_tag (user_has_access : Bool) (id : Nat) (tag : String) (db : DB) :
    DB × Except PyError (List String) :=
  if user_has_access = false then
    (db, .error (.httpException 403 "User does not have access to create an object"))
  else
    match db.processes.find? (fun r => r.id == id) with
    | none =>
      (db, .error (.httpException 404 ("IngestProcess with id (" ++ toString id ++ ") not found")))
    | some _ =>
      let db2 : DB :=
        { db with
          tagRows := db.tagRows.filter (fun r => !(r.ingest_process_id == id && r.tag == tag)) }
      (db2, .ok (db2.processTags id))

/-- An object of the response of the objects listing: the stored row plus the
freshly computed `pre_signed_url` (never persisted). -/
structure EnrichedObject where
  object : ObjectRow
  pre_signed_url : String
deriving DecidableEq, Repr

/-- The minio client as an oracle: `connect host` models constructing
`minio.Minio(endpoint=host, ...)` (which may fail, e.g. on missing
credentials), and `presign host bucket key` models
`presigned_get_object(bucket, key)` on the client connected to `host`; each
failure carries the message of the raised exception. -/
structure MinioOracle where
  connect : String → Except String Unit
  presign : String → String → String → Except String String

/-- The enrichment loop of the objects listing: walk the objects in order and
attach a pre-signed URL to each; the first failure aborts the loop with its
cause. -/
def enrichAll (m : MinioOracle) (host : String) :
    List ObjectRow → Except String (List EnrichedObject)
  | [] => .ok []
  | o :: rest =>
    match m.presign host o.bucket o.key with
    | .error e => .error e
    | .ok url =>
      match enrichAll m host rest with
      | .error e => .error e
      | .ok tail => .ok (⟨o, url⟩ :: tail)

/-- `get_ingest_process_objects` (src/api/routes/ingest.py lines 188-221).
The route selects the process by id and immediately reads
`ingest_process.object_group_id` with no not-found check, so an absent id
raises `AttributeError` on `None`; likewise for an absent object group.  With
the group's objects loaded, an empty list is returned before any object-store
interaction.  Otherwise a client is opened against the first object's host
and every object is enriched with a pre-signed URL; any exception in that
block is wrapped into an `HTTPException(500, "Failed to get secure url for
object: <cause>")`. -/
def get_ingest_process_objects (m : MinioOracle) (id : Nat) (db : DB) :
    Except PyError (List EnrichedObject) :=
  match db.processes.find? (fun r => r.id == id) with
  | none => .error (.attributeError "NoneType object has no attribute object_group_id")
  | some p =>
    match db.objectGroups.find? (fun g => g == p.object_group_id) with
    | none => .error (.attributeError "NoneType object has no attribute objects")
    | some _ =>
      let schema_objects := db.objects.filter (fun o => o.group_id == p.object_group_id)
      match schema_objects with
      | [] => .ok []
      | first :: _ =>
        match m.connect first.host with
        | .error e =>
          .error (.httpException 500 ("Failed to get secure url for object: " ++ e))
        | .ok _ =>
          match enrichAll m first.host schema_objects with
          | .error e =>
            .error (.httpException 500 ("Failed to get secure url for object: " ++ e))
          | .ok objs => .ok objs

/-! ### Concrete fixtures used by witnesses and counterexamples -/

/-- An empty store with fresh server counters. -/
def db0 : DB :=
  { sources := [], objectGroups := [], processes := [], tagRows := [], objects := []
    nextObjectGroupId := 1, nextProcessId := 1, now := 0 }

/-- The create body of the spec's scenario:
`{state: "PENDING", source_id: 7, tags: ["batch-1"]}`. -/
def rawBatch : RawPost :=
  { state := some "PENDING", comments := none, source_id := some 7
    access_group_id := none, tags := ["batch-1"] }

/-- A store whose only `Source` is id 7. -/
def dbSource7 : DB := { db0 with sources := [7] }

/-- A committed process row with id 1 over object group 1 and source 7. -/
def row1 : IngestProcessRow :=
  { id := 1, state := some "PENDING", comments := none, source_id := some 7
    access_group_id := none, object_group_id := 1, created_on := 0, completed_on := none }

/-- A store holding exactly the process `row1`, its object group, and source 7. -/
def dbOne : DB :=
  { sources := [7], objectGroups := [1], processes := [row1], tagRows := [], objects := []
    nextObjectGroupId := 2, nextProcessId := 2, now := 1 }

/-- `dbOne` with the single tag "alpha" on process 1. -/
def dbAlpha : DB := { dbOne with tagRows := [⟨1, "alpha"⟩] }

/-- A patch body setting only `comments` to `"x"`. -/
def patchComments : Patch :=
  { state := none, comments := some (some "x"), source_id := none, access_group_id := none }

/-- A patch body with no field set at all. -/
def patchEmpty : Patch :=
  { state := none, comments := none, source_id := none, access_group_id := none }

/-- An object-store oracle for which every call succeeds. -/
def okOracle : MinioOracle :=
  { connect := fun _ => .ok ()
    presign := fun h b k => .ok ("https://" ++ h ++ "/" ++ b ++ "/" ++ k) }

/-- An object-store oracle for which even connecting fails. -/
def failOracle : MinioOracle :=
  { connect := fun _ => .error "connection refused"
    presign := fun _ _ _ => .error "connection refused" }

/-- An object-store oracle that connects but cannot sign any URL. -/
def presignFailOracle : MinioOracle :=
  { connect := fun _ => .ok ()
    presign := fun _ _ _ => .error "SignatureDoesNotMatch" }

/-- An object row stored in group 1. -/
def objA : ObjectRow := { group_id := 1, host := "minio.local", bucket := "b", key := "k" }

/-- `dbOne` with one object in the process's object group. -/
def dbObjs : DB := { dbOne with objects := [objA] }

/-! ### C1 — create with an unknown source and the first commit -/

/-- C1 (counterexample): the claim states that a create whose `source_id`
references no existing `Source` fails with a `ValidationFailure` and leaves
no new `ObjectGroup` persisted.  On the concrete empty store (no source 7),
the create does fail — but with an `AttributeError` (the `Post` model has no
`tags` field), and the `ObjectGroup` committed by the first commit remains
persisted: the store's object groups grow from `[]` to `[1]`. -/
theorem create_unknown_source_claim_fails :
    db0.objectGroups = [] ∧
    (create_ingest_process true rawBatch db0).1.objectGroups = [1] ∧
    (create_ingest_process true rawBatch db0).2
      = .error (.attributeError "Post object has no attribute tags") :=
  ⟨rfl, rfl, rfl⟩

/-- C1 (amended): a create whose `source_id` references no existing `Source`
fails and persists no new `IngestProcess`, but the `ObjectGroup` created and
committed in the first step is not rolled back: exactly one new object group
remains in the store. -/
theorem create_unknown_source_not_rolled_back (raw : RawPost) (db : DB) (sid : Nat)
    (h1 : raw.source_id = some sid) (h2 : sid ∉ db.sources) :
    (∃ e, (create_ingest_process true raw db).2 = .error e) ∧
    (create_ingest_process true raw db).1.processes = db.processes ∧
    (create_ingest_process true raw db).1.objectGroups
      = db.objectGroups ++ [db.nextObjectGroupId] := by
  refine ⟨⟨.attributeError "Post object has no attribute tags", ?_⟩, ?_, ?_⟩ <;>
    simp [create_ingest_process, Post.getattrTags]

/-- C1 (witness for the amended theorem at `rawBatch` over the empty store). -/
theorem create_unknown_source_not_rolled_back_witness :
    rawBatch.source_id = some 7 ∧ 7 ∉ db0.sources ∧
    ((∃ e, (create_ingest_process true rawBatch db0).2 = .error e) ∧
      (create_ingest_process true rawBatch db0).1.processes = db0.processes ∧
      (create_ingest_process true rawBatch db0).1.objectGroups
        = db0.objectGroups ++ [db0.nextObjectGroupId]) :=
  ⟨rfl, by decide, create_unknown_source_not_rolled_back rawBatch db0 7 rfl (by decide)⟩

/-! ### C3 — create with tags: the `Post` model has no `tags` field -/

/-- C3 (evaluation at the failing input): creating
`{state: "PENDING", source_id: 7, tags: ["batch-1"]}` against a store where
source 7 exists does not materialize any tag: validation under
`extra = "ignore"` drops `tags` from the body, the route's `object.tags`
access raises `AttributeError`, and no `IngestProcess` is created — only the
already-committed empty `ObjectGroup` persists. -/
theorem create_with_tags_raises_attribute_error :
    create_ingest_process true rawBatch dbSource7
      = ({ dbSource7 with objectGroups := [1], nextObjectGroupId := 2 },
         .error (.attributeError "Post object has no attribute tags")) :=
  rfl

/-! ### C2 — patch of a nonexistent id -/

/-- C2 (evaluation at the failing input): patching id 5 with
`{comments: "x"}` on a store whose only process has id 1 does not return a
404 `NotFound`: the `UPDATE ... RETURNING` yields no row, `session.scalar`
returns `None`, and the route raises `AttributeError` on
`server_object.__dict__` (surfaced as an internal error), leaving the store
unchanged. -/
theorem patch_missing_id_raises_attribute_error :
    patch_ingest_process true 5 patchComments dbOne
      = (dbOne, .error (.attributeError "NoneType object has no attribute __dict__")) :=
  rfl

/-! ### C10 — patch with an empty body -/

/-- C10: a patch whose body sets no field at all (the exclude-unset dump is
the empty dict) never succeeds as a no-op: executing the `UPDATE` built from
an empty values set raises a statement error before any row is returned, and
the store is unchanged. -/
theorem patch_empty_values_errors (id : Nat) (p : Patch) (db : DB)
    (h : p.isUnsetAll = true) :
    patch_ingest_process true id p db
      = (db, .error (.statementError "a value is required for bind parameter")) := by
  simp [patch_ingest_process, h]

/-- C10 (witness at the all-unset patch body over `dbOne`). -/
theorem patch_empty_values_errors_witness :
    patchEmpty.isUnsetAll = true ∧
    patch_ingest_process true 1 patchEmpty dbOne
      = (dbOne, .error (.statementError "a value is required for bind parameter")) :=
  ⟨rfl, patch_empty_values_errors 1 patchEmpty dbOne rfl⟩

/-! ### C6 — patch is sparse -/

/-- C6: on an existing process, a patch changes only the fields its body
explicitly sets: the update succeeds and every field absent from the body —
and every immutable column — keeps its prior value, while a set field (the
claim's `comments` example) takes the provided value. -/
theorem patch_is_sparse (id : Nat) (p : Patch) (db : DB) (row : IngestProcessRow)
    (hfind : db.processes.find? (fun r => r.id == id) = some row)
    (hne : p.isUnsetAll = false) :
    ∃ r, (patch_ingest_process true id p db).2 = .ok r ∧
      (p.state = none → r.state = row.state) ∧
      (p.comments = none → r.comments = row.comments) ∧
      (p.source_id = none → r.source_id = row.source_id) ∧
      (p.access_group_id = none → r.access_group_id = row.access_group_id) ∧
      (∀ c, p.comments = some c → r.comments = c) ∧
      r.id = row.id ∧ r.object_group_id = row.object_group_id ∧
      r.created_on = row.created_on ∧ r.completed_on = row.completed_on := by
  refine ⟨applyPatch p row, ?_, ?_, ?_, ?_, ?_, ?_, rfl, rfl, rfl, rfl⟩
  · simp [patch_ingest_process, hne, hfind]
  · intro h; simp [applyPatch, h]
  · intro h; simp [applyPatch, h]
  · intro h; simp [applyPatch, h]
  · intro h; simp [applyPatch, h]
  · intro c h; simp [applyPatch, h]

/-- C6 (witness: patching `{comments: "x"}` on `dbOne`). -/
theorem patch_is_sparse_witness :
    (dbOne.processes.find? (fun r => r.id == 1) = some row1) ∧
    patchComments.isUnsetAll = false ∧
    (∃ r, (patch_ingest_process true 1 patchComments dbOne).2 = .ok r ∧
      (patchComments.state = none → r.state = row1.state) ∧
      (patchComments.comments = none → r.comments = row1.comments) ∧
      (patchComments.source_id = none → r.source_id = row1.source_id) ∧
      (patchComments.access_group_id = none → r.access_group_id = row1.access_group_id) ∧
      (∀ c, patchComments.comments = some c → r.comments = c) ∧
      r.id = row1.id ∧ r.object_group_id = row1.object_group_id ∧
      r.created_on = row1.created_on ∧ r.completed_on = row1.completed_on) :=
  ⟨rfl, rfl, patch_is_sparse 1 patchComments dbOne row1 rfl rfl⟩

/-! ### Tag helper lemmas -/

/-- Deleting by (process, tag) value and then projecting one process's tags
is the same as filtering that process's projected tag list by the tag. -/
theorem tagsOf_filter (rows : List TagRow) (id : Nat) (t : String) :
    ((rows.filter (fun r => !(r.ingest_process_id == id && r.tag == t))).filter
        (fun r => r.ingest_process_id == id)).map (fun r => r.tag)
      = ((rows.filter (fun r => r.ingest_process_id == id)).map (fun r => r.tag)).filter
          (fun s => !(s == t)) := by
  induction rows with
  | nil => rfl
  | cons r rest ih =>
    by_cases h1 : r.ingest_process_id = id
    · by_cases h2 : r.tag = t
      · simpa [List.filter_cons, h1, h2] using ih
      · simpa [List.filter_cons, h1, h2] using ih
    · simpa [List.filter_cons, h1] using ih

/-- The outcome of `delete_ingest_process_tag` on an existing process: the
returned list is the previous committed tag list with every occurrence of
the deleted tag removed. -/
theorem delete_tag_result (id : Nat) (t : String) (db : DB) (p : IngestProcessRow)
    (hp : db.processes.find? (fun r => r.id == id) = some p) :
    (delete_ingest_process_tag true id t db).2
      = .ok ((db.processTags id).filter (fun s => !(s == t))) := by
  have h := tagsOf_filter db.tagRows id t
  simp [delete_ingest_process_tag, hp, DB.processTags]
  simpa using h

/-- Appending one tag row for a process appends its string to that process's
committed tag list. -/
theorem processTags_append_own (db : DB) (id : Nat) (t : String) :
    DB.processTags { db with tagRows := db.tagRows ++ [⟨id, t⟩] } id
      = db.processTags id ++ [t] := by
  simp [DB.processTags, List.filter_append, List.filter_cons]

/-! ### C8 — delete tag is delete-by-value and idempotent on absent tags -/

/-- C8: deleting tag `t` from an existing process succeeds and returns the
committed tag list with every occurrence of `t` removed (delete-by-value,
duplicates included); in particular, deleting a `t` that is not in the
process's tag list returns the list unchanged. -/
theorem delete_tag_by_value (id : Nat) (t : String) (db : DB) (p : IngestProcessRow)
    (hp : db.processes.find? (fun r => r.id == id) = some p) :
    ((delete_ingest_process_tag true id t db).2
        = .ok ((db.processTags id).filter (fun s => !(s == t)))) ∧
    (t ∉ db.processTags id →
      (delete_ingest_process_tag true id t db).2 = .ok (db.processTags id)) := by
  refine ⟨delete_tag_result id t db p hp, fun ht => ?_⟩
  rw [delete_tag_result id t db p hp]
  congr 1
  apply List.filter_eq_self.mpr
  intro s hs
  have hst : s ≠ t := fun h => ht (h ▸ hs)
  simp [hst]

/-- C8 (witness: deleting the absent tag "beta" from a process tagged
["alpha"]). -/
theorem delete_tag_by_value_witness :
    (dbAlpha.processes.find? (fun r => r.id == 1) = some row1) ∧
    (((delete_ingest_process_tag true 1 "beta" dbAlpha).2
        = .ok ((dbAlpha.processTags 1).filter (fun s => !(s == "beta")))) ∧
      ("beta" ∉ dbAlpha.processTags 1 →
        (delete_ingest_process_tag true 1 "beta" dbAlpha).2
          = .ok (dbAlpha.processTags 1))) :=
  ⟨rfl, delete_tag_by_value 1 "beta" dbAlpha row1 rfl⟩

/-! ### C9 — add-then-delete round trip -/

/-- C9 (counterexample): the claim states the round trip restores the prior
tag list for every tag string.  On a process already tagged ["alpha"],
add-tag("alpha") then delete-tag("alpha") returns [] — delete-by-value also
removes the pre-existing duplicate — so the list is not restored. -/
theorem add_delete_roundtrip_claim_fails :
    dbAlpha.processTags 1 = ["alpha"] ∧
    (delete_ingest_process_tag true 1 "alpha"
        (add_ingest_process_tag true 1 "alpha" dbAlpha).1).2 = .ok [] :=
  ⟨rfl, rfl⟩

/-- C9 (amended): for an existing process and any tag string `t` not already
in its tag list, add-tag(`t`) followed by delete-tag(`t`) returns a tag list
equal to the list before either call. -/
theorem add_then_delete_roundtrip (id : Nat) (t : String) (db : DB) (p : IngestProcessRow)
    (hp : db.processes.find? (fun r => r.id == id) = some p)
    (ht : t ∉ db.processTags id) :
    (delete_ingest_process_tag true id t (add_ingest_process_tag true id t db).1).2
      = .ok (db.processTags id) := by
  have hadd : (add_ingest_process_tag true id t db).1
      = { db with tagRows := db.tagRows ++ [⟨id, t⟩] } := by
    simp [add_ingest_process_tag, hp]
  rw [hadd]
  have hp2 : ({ db with tagRows := db.tagRows ++ [⟨id, t⟩] } : DB).processes.find?
      (fun r => r.id == id) = some p := hp
  rw [delete_tag_result id t _ p hp2, processTags_append_own]
  have hl : (db.processTags id).filter (fun s => !(s == t)) = db.processTags id :=
    List.filter_eq_self.mpr (fun s hs => by
      have hst : s ≠ t := fun h => ht (h ▸ hs)
      simp [hst])
  simp [List.filter_append, hl]

/-- C9 (witness: round trip of the new tag "beta" on a process tagged
["alpha"]). -/
theorem add_then_delete_roundtrip_witness :
    (dbAlpha.processes.find? (fun r => r.id == 1) = some row1) ∧
    "beta" ∉ dbAlpha.processTags 1 ∧
    (delete_ingest_process_tag true 1 "beta"
        (add_ingest_process_tag true 1 "beta" dbAlpha).1).2
      = .ok (dbAlpha.processTags 1) :=
  ⟨rfl, by decide, add_then_delete_roundtrip 1 "beta" dbAlpha row1 rfl (by decide)⟩

/-! ### C4 — objects listing for a missing process id -/

/-- C4 (evaluation at the failing input): listing objects for id 1 on an
empty store does not surface a 404 `NotFound`: the route performs no
not-found check, so `ingest_process` is `None` and reading
`.object_group_id` raises `AttributeError` (surfaced as an internal error). -/
theorem objects_missing_process_raises_attribute_error :
    get_ingest_process_objects okOracle 1 db0
      = .error (.attributeError "NoneType object has no attribute object_group_id") :=
  rfl

/-! ### C7 — empty object group short-circuits enrichment -/

/-- C7: listing objects for an existing process whose object group holds
zero objects returns the empty list, whatever the object-store oracle does —
no connection and no URL-enrichment call is made. -/
theorem empty_group_returns_empty (m : MinioOracle) (id : Nat) (db : DB)
    (p : IngestProcessRow) (g0 : Nat)
    (hp : db.processes.find? (fun r => r.id == id) = some p)
    (hg : db.objectGroups.find? (fun g => g == p.object_group_id) = some g0)
    (hempty : db.objects.filter (fun o => o.group_id == p.object_group_id) = []) :
    get_ingest_process_objects m id db = .ok [] := by
  simp [get_ingest_process_objects, hp, hg, hempty]

/-- C7 (witness: `dbOne` has no objects, and even the oracle whose every call
fails yields the empty list). -/
theorem empty_group_returns_empty_witness :
    (dbOne.processes.find? (fun r => r.id == 1) = some row1) ∧
    (dbOne.objectGroups.find? (fun g => g == row1.object_group_id) = some 1) ∧
    (dbOne.objects.filter (fun o => o.group_id == row1.object_group_id) = []) ∧
    get_ingest_process_objects failOracle 1 dbOne = .ok [] :=
  ⟨rfl, rfl, rfl, empty_group_returns_empty failOracle 1 dbOne row1 1 rfl rfl rfl⟩

/-! ### C5 — URL enrichment is all-or-nothing -/

/-- If the pre-sign oracle fails on any object of the list, the enrichment
loop fails. -/
theorem enrichAll_error (m : MinioOracle) (host : String) (l : List ObjectRow)
    (h : ∃ o ∈ l, ∃ e, m.presign host o.bucket o.key = .error e) :
    ∃ e, enrichAll m host l = .error e := by
  induction l with
  | nil => simp at h
  | cons o rest ih =>
    cases hpre : m.presign host o.bucket o.key with
    | error e => exact ⟨e, by simp [enrichAll, hpre]⟩
    | ok url =>
      rcases h with ⟨o', ho', e', he'⟩
      rcases List.mem_cons.mp ho' with h1 | h2
      · subst h1
        simp [hpre] at he'
      · obtain ⟨e, herr⟩ := ih ⟨o', h2, e', he'⟩
        exact ⟨e, by simp [enrichAll, hpre, herr]⟩

/-- C5: when the object group is nonempty and obtaining a pre-signed URL
fails for any one of its objects, the whole objects-listing call fails with
an internal (500) error wrapping the underlying cause, and no list — in
particular no partially enriched list — is ever returned. -/
theorem enrichment_all_or_nothing (m : MinioOracle) (id : Nat) (db : DB)
    (p : IngestProcessRow) (g0 : Nat) (first : ObjectRow) (rest : List ObjectRow)
    (hp : db.processes.find? (fun r => r.id == id) = some p)
    (hg : db.objectGroups.find? (fun g => g == p.object_group_id) = some g0)
    (hobjs : db.objects.filter (fun o => o.group_id == p.object_group_id) = first :: rest)
    (hconn : m.connect first.host = .ok ())
    (hfail : ∃ o ∈ first :: rest, ∃ e, m.presign first.host o.bucket o.key = .error e) :
    (∃ e, get_ingest_process_objects m id db
        = .error (.httpException 500 ("Failed to get secure url for object: " ++ e))) ∧
    ∀ l, get_ingest_process_objects m id db ≠ .ok l := by
  obtain ⟨e, herr⟩ := enrichAll_error m first.host (first :: rest) hfail
  have hres : get_ingest_process_objects m id db
      = .error (.httpException 500 ("Failed to get secure url for object: " ++ e)) := by
    simp [get_ingest_process_objects, hp, hg, hobjs, hconn, herr]
  refine ⟨⟨e, hres⟩, fun l => ?_⟩
  rw [hres]
  simp

/-- C5 (witness: one stored object and an oracle that connects but cannot
sign). -/
theorem enrichment_all_or_nothing_witness :
    (dbObjs.processes.find? (fun r => r.id == 1) = some row1) ∧
    (dbObjs.objectGroups.find? (fun g => g == row1.object_group_id) = some 1) ∧
    (dbObjs.objects.filter (fun o => o.group_id == row1.object_group_id) = [objA]) ∧
    (presignFailOracle.connect objA.host = .ok ()) ∧
    ((∃ e, get_ingest_process_objects presignFailOracle 1 dbObjs
        = .error (.httpException 500 ("Failed to get secure url for object: " ++ e))) ∧
      ∀ l, get_ingest_process_objects presignFailOracle 1 dbObjs ≠ .ok l) :=
  ⟨rfl, rfl, rfl, rfl,
    enrichment_all_or_nothing presignFailOracle 1 dbObjs row1 1 objA [] rfl rfl rfl rfl
      ⟨objA, List.mem_cons_self objA [], "SignatureDoesNotMatch", rfl⟩⟩

end Ingest
